import Mathlib

/-!
Shallow embedding of the PRISM hybrid plagiarism-detection engine
(`src/core/` of the repository): lexical similarity, structural
(token-multiset) similarity, behavioral AI signals, the AI-assistance
scorer, the verdict classifier and the explanation generator, together
with theorems settling the frozen specification claims.

Python floats are modelled as rationals (ℚ); `round(x, 2)` is modelled
as rounding `x · 100` to the nearest integer and dividing back.
-/

namespace Prism

/-- Python `round(x, 2)`: round to two decimal places. -/
def pyRound2 (x : ℚ) : ℚ := ((round (x * 100) : ℤ) : ℚ) / 100

/-! ### src/core/lexical_similarity.py -/

/-- First character class of the regex `[A-Za-z_][A-Za-z0-9_]*`. -/
def isIdentStart (c : Char) : Bool := c.isAlpha || c = '_'

/-- Continuation character class of the regex `[A-Za-z_][A-Za-z0-9_]*`. -/
def isIdentCont (c : Char) : Bool := c.isAlphanum || c = '_'

/-- Fuel-driven scanner for `re.findall(r"[A-Za-z_][A-Za-z0-9_]*", code)`:
scan left to right; at an identifier-start character greedily take the
maximal run of identifier characters and continue after it, otherwise skip
one character. The fuel only bounds recursion depth (the scan consumes at
least one character per step, so fuel = length suffices). -/
def findIdentsAux : ℕ → List Char → List String
  | 0, _ => []
  | _ + 1, [] => []
  | fuel + 1, c :: cs =>
    if isIdentStart c then
      String.mk (c :: cs.takeWhile isIdentCont) ::
        findIdentsAux fuel (cs.dropWhile isIdentCont)
    else
      findIdentsAux fuel cs

/-- `re.findall(r"[A-Za-z_][A-Za-z0-9_]*", code)` on a character list. -/
def findIdents (l : List Char) : List String := findIdentsAux l.length l

/-- `tokenize(code)` of `lexical_similarity.py`: the de-duplicated set of
identifier-shaped substrings of `code`. -/
def tokenize (code : String) : Finset String := (findIdents code.data).toFinset

/-- `lexical_similarity(code_a, code_b)`: Jaccard overlap of the two
identifier sets, as a percentage rounded to two decimals; `0.0` if either
set is empty (`if not tokens_a or not tokens_b`). -/
def lexical_similarity (code_a code_b : String) : ℚ :=
  let tokens_a := tokenize code_a
  let tokens_b := tokenize code_b
  if tokens_a = ∅ ∨ tokens_b = ∅ then 0
  else
    let score : ℚ := ((tokens_a ∩ tokens_b).card : ℚ) / ((tokens_a ∪ tokens_b).card : ℚ)
    pyRound2 (score * 100)

/-! ### src/core/ast_similarity.py -/

/-- Token types of Python's `tokenize` module as used by `normalize`. -/
inductive TokType
  | nl | newline | indent | dedent | comment
  | name | number | string
  | op | endmarker
  deriving DecidableEq, Repr

/-- A raw lexer token: its type and its source string (`tok.type`, `tok.string`). -/
structure RawTok where
  type : TokType
  str : String
  deriving DecidableEq, Repr

/-- The `normalize` filtering/category-normalizing loop of `ast_similarity.py`,
applied to the lexer's output; `none` models the `except Exception` branch
(a lexer error yields `[]`). -/
def normalize (lexed : Option (List RawTok)) : List String :=
  match lexed with
  | none => []
  | some toks =>
    toks.filterMap fun tok =>
      match tok.type with
      | .nl | .newline | .indent | .dedent | .comment => none
      | .name => some "VAR"
      | .number => some "NUM"
      | .string => some "STR"
      | _ => some tok.str

/-- The inner `for i, bt in enumerate(b_tokens)` loop of `ast_similarity`:
find the first not-yet-used token of `b` whose value equals `tok`, mark it
used and stop; `none` when no unused equal token exists. -/
def markFirst (tok : String) : List (String × Bool) → Option (List (String × Bool))
  | [] => none
  | (bt, used) :: rest =>
    if !used && tok == bt then some ((bt, true) :: rest)
    else
      match markFirst tok rest with
      | some rest' => some ((bt, used) :: rest')
      | none => none

/-- The outer `for tok in a_tokens` loop of `ast_similarity`: the number of
matches made by the greedy first-fit policy, starting from state `bs`. -/
def greedyMatches : List String → List (String × Bool) → ℕ
  | [], _ => 0
  | tok :: toks, bs =>
    match markFirst tok bs with
    | some bs' => greedyMatches toks bs' + 1
    | none => greedyMatches toks bs

/-- The structural comparator on normalized token sequences: the lines of
`ast_similarity` from the `if not a_tokens or not b_tokens` check onward. -/
def structural_core (a_tokens b_tokens : List String) : ℚ :=
  if a_tokens = [] ∨ b_tokens = [] then 0
  else
    let matchCount := greedyMatches a_tokens (b_tokens.map fun bt => (bt, false))
    pyRound2 ((matchCount : ℚ) / (Nat.max a_tokens.length b_tokens.length : ℚ) * 100)

/-- `ast_similarity(code_a, code_b)`, parameterized by the Python lexer's
output on each input (the lexer itself is the standard library's, outside
this repository; `normalize`'s `none` case is its error outcome). -/
def ast_similarity (code_a code_b : String) (lex_a lex_b : Option (List RawTok)) : ℚ :=
  if code_a = "" ∨ code_b = "" then 0
  else structural_core (normalize lex_a) (normalize lex_b)

/-- Reference definition (spec side): the size of the multiset intersection
of the two token sequences. -/
def multisetMatches (a b : List String) : ℕ :=
  Multiset.card ((a : Multiset String) ∩ (b : Multiset String))

/-- Reference definition (spec side): the structural comparator with the
first-fit loop replaced by the multiset-intersection count. -/
def structural_spec (a_tokens b_tokens : List String) : ℚ :=
  if a_tokens = [] ∨ b_tokens = [] then 0
  else
    pyRound2 ((multisetMatches a_tokens b_tokens : ℚ) /
      (Nat.max a_tokens.length b_tokens.length : ℚ) * 100)

/-- The multiset of not-yet-used token values in a matching state. -/
def avail : List (String × Bool) → Multiset String
  | [] => 0
  | (bt, used) :: rest => if used then avail rest else bt ::ₘ avail rest

/-! ### src/core/ai_detector.py -/

/-- `ai_assistance_score(lexical, structural, id_div, fmt, logic)`: the
additive, capped rule stack. -/
def ai_assistance_score (lexical structural id_div fmt logic : ℚ) : ℚ :=
  let score : ℚ := 0
  let score := if structural > 70 ∧ lexical < 40 then score + 0.4 else score
  let score := if id_div < 0.35 then score + 0.2 else score
  let score := if fmt > 0.85 then score + 0.2 else score
  let score := if logic > 0.15 then score + 0.2 else score
  min score 1.0

/-- The set of triggered scorer rules, as four Booleans in rule order. -/
def triggeredRules (lexical structural id_div fmt logic : ℚ) :
    Bool × Bool × Bool × Bool :=
  (decide (structural > 70 ∧ lexical < 40),
   decide (id_div < 0.35),
   decide (fmt > 0.85),
   decide (logic > 0.15))

/-- The sum of the bonuses of a set of triggered rules. -/
def bonusSum : Bool × Bool × Bool × Bool → ℚ
  | (r1, r2, r3, r4) =>
    (if r1 then (0.4 : ℚ) else 0) + (if r2 then (0.2 : ℚ) else 0) +
    (if r3 then (0.2 : ℚ) else 0) + (if r4 then (0.2 : ℚ) else 0)

/-! ### src/core/rules.py -/

/-- `classify_plagiarism(lexical, structural, ai_score)`: the verdict
priority cascade. -/
def classify_plagiarism (lexical structural ai_score : ℚ) : String :=
  if lexical > 80 ∧ structural > 80 then "Direct Copy"
  else if ai_score ≥ 0.7 then "AI-Assisted Plagiarism"
  else if lexical < 35 ∧ structural < 35 then "Likely Original"
  else "Moderate Similarity"

/-! ### src/core/ai_signals.py -/

/-- `identifier_diversity(code)`: distinct identifier count over total
identifier occurrences; `0` when there are none. -/
def identifier_diversity (code : String) : ℚ :=
  let names := findIdents code.data
  if names = [] then 0
  else (names.toFinset.card : ℚ) / (names.length : ℚ)

/-- Python `l.strip()` truthiness: the line has a non-whitespace character. -/
def stripNonempty (l : String) : Bool := l.data.any fun c => !c.isWhitespace

/-- Split a character list at newline characters (accumulator holds the
current line in reverse). -/
def splitlinesAux : List Char → List Char → List String
  | [], acc => [String.mk acc.reverse]
  | c :: cs, acc =>
    if c = '\n' then String.mk acc.reverse :: splitlinesAux cs []
    else splitlinesAux cs (c :: acc)

/-- `code.splitlines()`: split on newline characters, with no trailing empty
line (so the empty string yields no lines). -/
def splitlines (code : String) : List String :=
  let parts := splitlinesAux code.data []
  if parts.getLast? = some "" then parts.dropLast else parts

/-- Python `max` over a nonempty list of naturals (`0` fallback unused). -/
def listMax : List ℕ → ℕ
  | [] => 0
  | h :: t => t.foldl Nat.max h

/-- Python `min` over a nonempty list of naturals (`0` fallback unused). -/
def listMin : List ℕ → ℕ
  | [] => 0
  | h :: t => t.foldl Nat.min h

/-- `formatting_consistency(code)`: `1 - (max - min) / max` over the lengths
of the non-blank lines; `0` if there are none. -/
def formatting_consistency (code : String) : ℚ :=
  let lines := (splitlines code).filter stripNonempty
  if lines = [] then 0
  else
    let lengths := lines.map String.length
    1 - ((listMax lengths : ℚ) - (listMin lengths : ℚ)) / (listMax lengths : ℚ)

/-- Kinds of AST nodes relevant to `logic_density`; `other` stands for every
remaining node type (e.g. `Module`, `Assign`, expressions). -/
inductive AstNode
  | ifStmt | forStmt | whileStmt | tryStmt | withStmt | functionDef
  | other
  deriving DecidableEq, Repr

/-- `isinstance(n, logic_nodes)` for the tuple in `logic_density`. -/
def isLogicNode : AstNode → Bool
  | .ifStmt | .forStmt | .whileStmt | .tryStmt | .withStmt | .functionDef => true
  | .other => false

/-- `logic_density(code)`, parameterized by the outcome of
`ast.walk(ast.parse(code))` (the parser is the standard library's, outside
this repository); `none` models the `except` branch on a parse error. -/
def logic_density (code : String) (walked : Option (List AstNode)) : ℚ :=
  match walked with
  | none => 0
  | some nodes =>
    let logic_count := nodes.countP fun n => isLogicNode n
    let line_count := Nat.max (splitlines code).length 1
    (logic_count : ℚ) / (line_count : ℚ)

/-! ### src/core/explanation.py -/

/-- Rendering of a Python number inside an f-string, abstracted as the
rational's canonical `num/den` form (the claims do not depend on the exact
decimal rendering). -/
def ratStr (q : ℚ) : String := toString q.num ++ "/" ++ toString q.den

/-- The closing line of `generate_explanation` for `ai_score >= 0.7`. -/
def closingHigh (ai_score : ℚ) : String :=
  "Overall AI-assistance score is high (" ++ ratStr (pyRound2 ai_score) ++
    "), indicating AI-assisted plagiarism."

/-- The closing line of `generate_explanation` for `0.4 <= ai_score < 0.7`. -/
def closingModerate (ai_score : ℚ) : String :=
  "Overall AI-assistance score is moderate (" ++ ratStr (pyRound2 ai_score) ++
    "), suggesting possible AI assistance."

/-- The closing line of `generate_explanation` for `ai_score < 0.4`. -/
def closingLow (ai_score : ℚ) : String :=
  "Overall AI-assistance score is low (" ++ ratStr (pyRound2 ai_score) ++
    "), indicating likely human-written code."

/-- `generate_explanation(file_a, file_b, lexical, structural, ai_score,
id_div, fmt, logic)`: the ordered rationale lines. -/
def generate_explanation (file_a file_b : String)
    (lexical structural ai_score id_div fmt logic : ℚ) : List String :=
  [ "Comparison between `" ++ file_a ++ "` and `" ++ file_b ++ "`." ]
  ++ [ if structural ≥ 80 then
        "Very high structural similarity (" ++ ratStr structural ++
          "%) indicates reused program logic."
      else if structural ≥ 60 then
        "Moderate structural similarity (" ++ ratStr structural ++
          "%) suggests similar control flow."
      else
        "Low structural similarity (" ++ ratStr structural ++
          "%) indicates different program structures." ]
  ++ [ if lexical ≥ 80 then
        "High lexical similarity (" ++ ratStr lexical ++
          "%) suggests direct copying."
      else if lexical ≥ 40 then
        "Moderate lexical similarity (" ++ ratStr lexical ++
          "%) suggests partial reuse of identifiers."
      else
        "Low lexical similarity (" ++ ratStr lexical ++
          "%) suggests renaming or rewriting of identifiers." ]
  ++ [ "AI-assisted pattern analysis:" ]
  ++ (if structural > 70 ∧ lexical < 40 then
        [ "• High structural but low lexical similarity is a common AI paraphrasing pattern." ]
      else [])
  ++ [ if id_div < 0.35 then
        "• Low identifier diversity (" ++ ratStr (pyRound2 id_div) ++
          ") indicates generic naming behavior."
      else
        "• Identifier diversity (" ++ ratStr (pyRound2 id_div) ++
          ") appears human-like." ]
  ++ [ if fmt > 0.85 then
        "• High formatting consistency (" ++ ratStr (pyRound2 fmt) ++
          ") suggests automated code styling."
      else
        "• Formatting consistency (" ++ ratStr (pyRound2 fmt) ++
          ") appears natural." ]
  ++ [ if logic > 0.15 then
        "• High logic density (" ++ ratStr (pyRound2 logic) ++
          ") indicates compact, AI-style logic generation."
      else
        "• Logic density (" ++ ratStr (pyRound2 logic) ++
          ") is within normal human range." ]
  ++ [ if ai_score ≥ 0.7 then closingHigh ai_score
      else if ai_score ≥ 0.4 then closingModerate ai_score
      else closingLow ai_score ]

/-- Reference definition (spec side): the lexical score as the spec words
it, `round(100 * |Ta ∩ Tb| / |Ta ∪ Tb|, 2)`, and `0.0` when either
identifier set is empty. -/
def lexical_similarity_spec (a b : String) : ℚ :=
  let ta := tokenize a
  let tb := tokenize b
  if ta = ∅ ∨ tb = ∅ then 0
  else pyRound2 (100 * ((ta ∩ tb).card : ℚ) / ((ta ∪ tb).card : ℚ))

/-! ### Helper lemmas -/

lemma round_le_round {x y : ℚ} (h : x ≤ y) : round x ≤ round y := by
  rw [round_eq, round_eq]
  exact Int.floor_mono (by linarith)

lemma pyRound2_nonneg {x : ℚ} (h : 0 ≤ x) : 0 ≤ pyRound2 x := by
  have h1 : (0:ℤ) ≤ round (x * 100) := by
    have h2 := round_le_round (show (0:ℚ) ≤ x * 100 by positivity)
    simpa using h2
  unfold pyRound2
  exact div_nonneg (by exact_mod_cast h1) (by norm_num)

lemma pyRound2_le_hundred {x : ℚ} (h : x ≤ 100) : pyRound2 x ≤ 100 := by
  have h1 : round (x * 100) ≤ (10000:ℤ) := by
    have h2 := round_le_round (show x * 100 ≤ ((10000:ℤ):ℚ) by push_cast; linarith)
    simpa using h2
  unfold pyRound2
  rw [div_le_iff₀ (by norm_num : (0:ℚ) < 100)]
  have h3 : ((round (x * 100) : ℤ) : ℚ) ≤ ((10000:ℤ):ℚ) := by exact_mod_cast h1
  push_cast at h3 ⊢
  linarith

lemma pyRound2_hundred : pyRound2 100 = 100 := by
  unfold pyRound2
  rw [show ((100:ℚ) * 100) = ((10000 : ℤ) : ℚ) by norm_num, round_intCast]
  norm_num

lemma avail_map_false (b : List String) :
    avail (b.map fun bt => (bt, false)) = (b : Multiset String) := by
  induction b with
  | nil => rfl
  | cons x xs ih => simp [avail, ih]

lemma markFirst_none {tok : String} {bs : List (String × Bool)}
    (h : markFirst tok bs = none) : tok ∉ avail bs := by
  induction bs with
  | nil => simp [avail]
  | cons p rest ih =>
    obtain ⟨bt, used⟩ := p
    rw [markFirst] at h
    by_cases hc : (!used && tok == bt) = true
    · rw [if_pos hc] at h; exact absurd h (by simp)
    · rw [if_neg hc] at h
      cases hrec : markFirst tok rest with
      | some rest' => rw [hrec] at h; exact absurd h (by simp)
      | none =>
        have hnotin := ih hrec
        simp only [Bool.and_eq_true, Bool.not_eq_true', beq_iff_eq, not_and] at hc
        cases used with
        | true => simpa [avail] using hnotin
        | false =>
          have hne : tok ≠ bt := hc rfl
          simp [avail, Multiset.mem_cons, hne, hnotin]

lemma markFirst_some {tok : String} {bs bs' : List (String × Bool)}
    (h : markFirst tok bs = some bs') :
    tok ∈ avail bs ∧ avail bs' = (avail bs).erase tok := by
  induction bs generalizing bs' with
  | nil => simp [markFirst] at h
  | cons p rest ih =>
    obtain ⟨bt, used⟩ := p
    rw [markFirst] at h
    by_cases hc : (!used && tok == bt) = true
    · rw [if_pos hc] at h
      simp only [Bool.and_eq_true, Bool.not_eq_true', beq_iff_eq] at hc
      obtain ⟨hused, heq⟩ := hc
      obtain rfl : ((bt, true) :: rest) = bs' := Option.some.inj h
      subst heq
      subst hused
      constructor
      · simp [avail]
      · simp [avail, Multiset.erase_cons_head]
    · rw [if_neg hc] at h
      cases hrec : markFirst tok rest with
      | none => rw [hrec] at h; exact absurd h (by simp)
      | some rest' =>
        rw [hrec] at h
        obtain rfl : ((bt, used) :: rest') = bs' := Option.some.inj h
        obtain ⟨hmem, heq⟩ := ih hrec
        simp only [Bool.and_eq_true, Bool.not_eq_true', beq_iff_eq, not_and] at hc
        cases used with
        | true =>
          have h1 : avail ((bt, true) :: rest) = avail rest := by simp [avail]
          have h2 : avail ((bt, true) :: rest') = avail rest' := by simp [avail]
          rw [h1, h2, heq]
          exact ⟨hmem, rfl⟩
        | false =>
          have hne : tok ≠ bt := hc rfl
          have h1 : avail ((bt, false) :: rest) = bt ::ₘ avail rest := by simp [avail]
          have h2 : avail ((bt, false) :: rest') = bt ::ₘ avail rest' := by simp [avail]
          rw [h1, h2, heq, Multiset.erase_cons_tail _ (Ne.symm hne)]
          exact ⟨Multiset.mem_cons_of_mem hmem, rfl⟩

lemma greedyMatches_eq_inter (a : List String) (bs : List (String × Bool)) :
    greedyMatches a bs = Multiset.card ((a : Multiset String) ∩ avail bs) := by
  induction a generalizing bs with
  | nil => simp [greedyMatches]
  | cons t ts ih =>
    have hcons : ((t :: ts : List String) : Multiset String) = t ::ₘ (ts : Multiset String) :=
      rfl
    cases h : markFirst t bs with
    | some bs' =>
      obtain ⟨hmem, heq⟩ := markFirst_some h
      simp only [greedyMatches, h]
      rw [ih bs', heq, hcons, Multiset.cons_inter_of_pos _ hmem, Multiset.card_cons]
    | none =>
      have hnot := markFirst_none h
      simp only [greedyMatches, h]
      rw [ih bs, hcons, Multiset.cons_inter_of_neg _ hnot]

lemma greedyMatches_initial (a b : List String) :
    greedyMatches a (b.map fun bt => (bt, false)) = multisetMatches a b := by
  rw [greedyMatches_eq_inter, avail_map_false, multisetMatches]

lemma lexical_similarity_bounds (a b : String) :
    0 ≤ lexical_similarity a b ∧ lexical_similarity a b ≤ 100 := by
  simp only [lexical_similarity]
  split_ifs with h
  · norm_num
  · push_neg at h
    obtain ⟨ha, hb⟩ := h
    have hag : (tokenize a).Nonempty := Finset.nonempty_iff_ne_empty.mpr ha
    have hu : 0 < ((tokenize a ∪ tokenize b).card : ℚ) := by
      have h4 : 0 < (tokenize a ∪ tokenize b).card :=
        Finset.card_pos.mpr (Finset.Nonempty.inl (t := tokenize b) hag)
      exact_mod_cast h4
    have hle : ((tokenize a ∩ tokenize b).card : ℚ) ≤
        ((tokenize a ∪ tokenize b).card : ℚ) := by
      exact_mod_cast Finset.card_le_card
        (le_trans Finset.inter_subset_left Finset.subset_union_left)
    have hsc0 : 0 ≤ ((tokenize a ∩ tokenize b).card : ℚ) /
        ((tokenize a ∪ tokenize b).card : ℚ) := div_nonneg (by positivity) (le_of_lt hu)
    have hsc1 : ((tokenize a ∩ tokenize b).card : ℚ) /
        ((tokenize a ∪ tokenize b).card : ℚ) ≤ 1 := (div_le_one hu).mpr hle
    exact ⟨pyRound2_nonneg (by nlinarith), pyRound2_le_hundred (by nlinarith)⟩

lemma structural_core_bounds (a b : List String) :
    0 ≤ structural_core a b ∧ structural_core a b ≤ 100 := by
  simp only [structural_core]
  split_ifs with h
  · norm_num
  · push_neg at h
    obtain ⟨ha, hb⟩ := h
    rw [greedyMatches_initial]
    have hlen : 0 < a.length := List.length_pos.mpr ha
    have hmax : 0 < (Nat.max a.length b.length : ℚ) := by
      have : 0 < Nat.max a.length b.length := lt_of_lt_of_le hlen (Nat.le_max_left _ _)
      exact_mod_cast this
    have hm : (multisetMatches a b : ℚ) ≤ (Nat.max a.length b.length : ℚ) := by
      have h1 : multisetMatches a b ≤ a.length := by
        have h2 := Multiset.card_le_card
          (Multiset.inter_le_left (a : Multiset String) (b : Multiset String))
        simpa [multisetMatches, Multiset.coe_card] using h2
      have h3 : multisetMatches a b ≤ Nat.max a.length b.length :=
        le_trans h1 (Nat.le_max_left _ _)
      exact_mod_cast h3
    have hr0 : (0:ℚ) ≤ (multisetMatches a b : ℚ) / (Nat.max a.length b.length : ℚ) :=
      div_nonneg (by positivity) (le_of_lt hmax)
    have hr1 : (multisetMatches a b : ℚ) / (Nat.max a.length b.length : ℚ) ≤ 1 :=
      (div_le_one hmax).mpr hm
    exact ⟨pyRound2_nonneg (by nlinarith), pyRound2_le_hundred (by nlinarith)⟩

lemma ai_assistance_score_bounds (l s d f g : ℚ) :
    0 ≤ ai_assistance_score l s d f g ∧ ai_assistance_score l s d f g ≤ 1 := by
  simp only [ai_assistance_score]
  constructor
  · apply le_min
    · split_ifs <;> norm_num
    · norm_num
  · exact le_trans (min_le_right _ _) (by norm_num)

/-! ### Claim theorems -/

/-- C7: lexical similarity is symmetric: for every pair of texts `A` and
`B`, `lexical_similarity(A, B) = lexical_similarity(B, A)`. -/
theorem C7_lexical_similarity_symmetric (a b : String) :
    lexical_similarity a b = lexical_similarity b a := by
  simp only [lexical_similarity]
  exact if_congr or_comm rfl (by rw [Finset.inter_comm, Finset.union_comm])

/-- C6: for every pair of texts, `lexical_similarity(a, b)` equals
`round(100 * |Ta ∩ Tb| / |Ta ∪ Tb|, 2)` on the de-duplicated identifier
sets, and equals exactly `0.0` whenever either set is empty. -/
theorem C6_lexical_similarity_jaccard (a b : String) :
    lexical_similarity a b = lexical_similarity_spec a b
    ∧ (tokenize a = ∅ ∨ tokenize b = ∅ → lexical_similarity a b = 0) := by
  constructor
  · simp only [lexical_similarity, lexical_similarity_spec]
    exact if_congr Iff.rfl rfl (by congr 1; ring)
  · intro h
    simp only [lexical_similarity]
    rw [if_pos h]

/-- C6 witness: at the concrete pair `("", "x")` the first identifier set
is empty and the score is `0`. -/
theorem C6_lexical_similarity_jaccard_witness :
    (tokenize "" = ∅ ∨ tokenize "x" = ∅) ∧ lexical_similarity "" "x" = 0 :=
  ⟨Or.inl (by decide), (C6_lexical_similarity_jaccard "" "x").2 (Or.inl (by decide))⟩

/-- C8 is false as stated: `"!!!"` is a non-empty text, yet its lexical
self-similarity is `0` (its identifier set is empty), not `100.0`. -/
theorem C8_counterexample :
    ("!!!" : String) ≠ "" ∧ lexical_similarity "!!!" "!!!" ≠ 100 := by
  refine ⟨by decide, ?_⟩
  have h : tokenize "!!!" = ∅ := by decide
  simp only [lexical_similarity]
  rw [if_pos (Or.inl h)]
  norm_num

/-- C8 (amended): for every text `t` whose identifier-token set is
non-empty, `lexical_similarity(t, t)` is exactly `100.0`. -/
theorem C8_self_similarity_hundred (t : String) (h : tokenize t ≠ ∅) :
    lexical_similarity t t = 100 := by
  simp only [lexical_similarity]
  rw [if_neg (by simpa using h), Finset.inter_self, Finset.union_self]
  have hc : ((tokenize t).card : ℚ) ≠ 0 := by
    have h2 : (tokenize t).card ≠ 0 := by simpa [Finset.card_eq_zero] using h
    exact_mod_cast h2
  rw [div_self hc, one_mul]
  exact pyRound2_hundred

/-- C8 witness: the amended claim at the concrete text `"abc"`. -/
theorem C8_self_similarity_hundred_witness :
    tokenize "abc" ≠ ∅ ∧ lexical_similarity "abc" "abc" = 100 :=
  ⟨by decide, C8_self_similarity_hundred "abc" (by decide)⟩

/-- C5: for every input, `lexical_similarity` and `ast_similarity` return
values in `[0, 100]`, and `ai_assistance_score` returns a value in
`[0.0, 1.0]`. -/
theorem C5_output_ranges (ca cb : String) (la lb : Option (List RawTok))
    (l s d f g : ℚ) :
    (0 ≤ lexical_similarity ca cb ∧ lexical_similarity ca cb ≤ 100)
    ∧ (0 ≤ ast_similarity ca cb la lb ∧ ast_similarity ca cb la lb ≤ 100)
    ∧ (0 ≤ ai_assistance_score l s d f g ∧ ai_assistance_score l s d f g ≤ 1) := by
  refine ⟨lexical_similarity_bounds ca cb, ?_, ai_assistance_score_bounds l s d f g⟩
  simp only [ast_similarity]
  split_ifs
  · norm_num
  · exact structural_core_bounds _ _

/-- C3: the greedy first-fit match count equals the size of the multiset
intersection of the two token sequences (pointwise minimum of occurrence
counts), so the structural comparator equals its reference
multiset-intersection definition, and returns `0.0` when either sequence
is empty. -/
theorem C3_greedy_equals_multiset_intersection (a b : List String) :
    greedyMatches a (b.map fun bt => (bt, false)) = multisetMatches a b
    ∧ (∀ t : String, ((a : Multiset String) ∩ (b : Multiset String)).count t
        = min (a.count t) (b.count t))
    ∧ structural_core a b = structural_spec a b
    ∧ (a = [] ∨ b = [] → structural_core a b = 0) := by
  refine ⟨greedyMatches_initial a b, ?_, ?_, ?_⟩
  · intro t
    rw [Multiset.count_inter]
    simp [Multiset.coe_count]
  · simp only [structural_core, structural_spec, greedyMatches_initial]
  · intro h
    simp only [structural_core]
    rw [if_pos h]

/-- C3 witness: the empty-sequence case at a concrete input. -/
theorem C3_greedy_equals_multiset_intersection_witness :
    (([] : List String) = [] ∨ (["x"] : List String) = [])
    ∧ structural_core [] ["x"] = 0 :=
  ⟨Or.inl rfl,
    (C3_greedy_equals_multiset_intersection [] ["x"]).2.2.2 (Or.inl rfl)⟩

lemma structural_core_comm (a b : List String) :
    structural_core a b = structural_core b a := by
  simp only [structural_core, greedyMatches_initial]
  refine if_congr or_comm rfl ?_
  have hmx : Nat.max a.length b.length = Nat.max b.length a.length :=
    Nat.max_comm _ _
  rw [multisetMatches, multisetMatches, Multiset.inter_comm, hmx]

/-- C10: structural similarity is symmetric: `ast_similarity(A, B) =
ast_similarity(B, A)` for all texts (with the lexer output attached to each
text), even though the greedy loop iterates over `A` and consumes `B`. -/
theorem C10_ast_similarity_symmetric (ca cb : String)
    (la lb : Option (List RawTok)) :
    ast_similarity ca cb la lb = ast_similarity cb ca lb la := by
  simp only [ast_similarity]
  exact if_congr or_comm rfl (structural_core_comm _ _)

/-- C4 (evaluation at the failing input): the whitespace-only document
`"   "` gets lexical score `0` and all three behavioral signals `0` as the
claim states, but its structural score against `"x = 1\n"` is `25.0`, not
`0.0`: the lexer's end-of-input token is not filtered by `normalize`, so
it normalizes to `""` and is counted as a match. The raw token streams
used here are exactly the ones Python's `tokenize.generate_tokens`
produces on these inputs, and the walked AST node list is the one
`ast.walk(ast.parse("   "))` produces (a single `Module` node). -/
theorem C4_whitespace_only_evaluation :
    ast_similarity "   " "x = 1\n"
      (some [⟨TokType.endmarker, ""⟩])
      (some [⟨TokType.name, "x"⟩, ⟨TokType.op, "="⟩, ⟨TokType.number, "1"⟩,
             ⟨TokType.newline, "\n"⟩, ⟨TokType.endmarker, ""⟩]) = 25
    ∧ lexical_similarity "   " "x = 1\n" = 0
    ∧ identifier_diversity "   " = 0
    ∧ formatting_consistency "   " = 0
    ∧ logic_density "   " (some [AstNode.other]) = 0 := by
  refine ⟨?_, ?_, ?_, ?_, ?_⟩
  · simp only [ast_similarity]
    rw [if_neg (by decide : ¬(("   " : String) = "" ∨ ("x = 1\n" : String) = ""))]
    have ha : normalize (some [⟨TokType.endmarker, ""⟩]) = [""] := rfl
    have hb : normalize (some [⟨TokType.name, "x"⟩, ⟨TokType.op, "="⟩,
        ⟨TokType.number, "1"⟩, ⟨TokType.newline, "\n"⟩, ⟨TokType.endmarker, ""⟩])
        = ["VAR", "=", "NUM", ""] := rfl
    rw [ha, hb]
    simp only [structural_core]
    rw [if_neg (by decide :
      ¬(([""] : List String) = [] ∨ (["VAR", "=", "NUM", ""] : List String) = []))]
    have hg : greedyMatches [""]
        ((["VAR", "=", "NUM", ""] : List String).map fun bt => (bt, false)) = 1 := by
      decide
    have hm : Nat.max ([""] : List String).length
        (["VAR", "=", "NUM", ""] : List String).length = 4 := by decide
    rw [hg, hm]
    have hq : ((1:ℕ):ℚ) / ((4:ℕ):ℚ) * 100 * 100 = ((2500 : ℤ) : ℚ) := by
      push_cast
      norm_num
    rw [pyRound2, hq, round_intCast]
    norm_num
  · simp only [lexical_similarity]
    rw [if_pos (Or.inl (by decide : tokenize "   " = ∅))]
  · simp only [identifier_diversity]
    rw [if_pos (by decide : findIdents ("   " : String).data = [])]
  · simp only [formatting_consistency]
    rw [if_pos (by decide : (splitlines "   ").filter stripNonempty = [])]
  · simp only [logic_density]
    have hc : List.countP (fun n => isLogicNode n) [AstNode.other] = 0 := rfl
    rw [hc]
    norm_num

lemma ai_assistance_score_eq_bonusSum (l s d f g : ℚ) :
    ai_assistance_score l s d f g = min (bonusSum (triggeredRules l s d f g)) 1.0 := by
  simp only [ai_assistance_score, triggeredRules, bonusSum, decide_eq_true_eq]
  split_ifs <;> norm_num [min_def]

lemma bonusSum_mono {b c : Bool × Bool × Bool × Bool}
    (h1 : b.1 = true → c.1 = true) (h2 : b.2.1 = true → c.2.1 = true)
    (h3 : b.2.2.1 = true → c.2.2.1 = true) (h4 : b.2.2.2 = true → c.2.2.2 = true) :
    bonusSum b ≤ bonusSum c := by
  obtain ⟨b1, b2, b3, b4⟩ := b
  obtain ⟨c1, c2, c3, c4⟩ := c
  simp only at h1 h2 h3 h4
  simp only [bonusSum]
  have step : ∀ (x y : Bool) (q : ℚ), 0 ≤ q → (x = true → y = true) →
      (if x then q else 0) ≤ (if y then q else 0) := by
    intro x y q hq hxy
    cases x
    · cases y <;> simp [hq]
    · rw [hxy rfl]
  exact add_le_add (add_le_add (add_le_add
    (step _ _ _ (by norm_num) h1) (step _ _ _ (by norm_num) h2))
    (step _ _ _ (by norm_num) h3)) (step _ _ _ (by norm_num) h4)

/-- C1: `ai_assistance_score` returns `min(s, 1.0)` where `s` is the sum of
exactly the triggered bonuses (0.4 for structural > 70 and lexical < 40,
0.2 each for id_div < 0.35, fmt > 0.85, logic > 0.15); it is monotone
non-decreasing in the set of triggered rules, never exceeds 1.0, and is
exactly 1.0 when all four rules trigger. -/
theorem C1_ai_assistance_score_rule_stack (l s d f g : ℚ) :
    ai_assistance_score l s d f g = min (bonusSum (triggeredRules l s d f g)) 1.0
    ∧ ai_assistance_score l s d f g ≤ 1.0
    ∧ (∀ l' s' d' f' g' : ℚ,
        ((triggeredRules l s d f g).1 = true → (triggeredRules l' s' d' f' g').1 = true) →
        ((triggeredRules l s d f g).2.1 = true → (triggeredRules l' s' d' f' g').2.1 = true) →
        ((triggeredRules l s d f g).2.2.1 = true →
          (triggeredRules l' s' d' f' g').2.2.1 = true) →
        ((triggeredRules l s d f g).2.2.2 = true →
          (triggeredRules l' s' d' f' g').2.2.2 = true) →
        ai_assistance_score l s d f g ≤ ai_assistance_score l' s' d' f' g')
    ∧ ((s > 70 ∧ l < 40) → d < 0.35 → f > 0.85 → g > 0.15 →
        ai_assistance_score l s d f g = 1.0) := by
  refine ⟨ai_assistance_score_eq_bonusSum l s d f g, ?_, ?_, ?_⟩
  · rw [ai_assistance_score_eq_bonusSum]
    exact min_le_right _ _
  · intro l' s' d' f' g' h1 h2 h3 h4
    rw [ai_assistance_score_eq_bonusSum, ai_assistance_score_eq_bonusSum]
    exact min_le_min (bonusSum_mono h1 h2 h3 h4) le_rfl
  · intro h1 h2 h3 h4
    rw [ai_assistance_score_eq_bonusSum]
    have ht : triggeredRules l s d f g = (true, true, true, true) := by
      simp [triggeredRules, h1, h2, h3, h4]
    rw [ht]
    norm_num [bonusSum, min_def]

/-- C1 witness: all four rules trigger at (20, 85, 0.2, 0.9, 0.2) and the
score is exactly 1.0. -/
theorem C1_ai_assistance_score_rule_stack_witness :
    ((85:ℚ) > 70 ∧ (20:ℚ) < 40) ∧ (0.2:ℚ) < 0.35 ∧ (0.9:ℚ) > 0.85
    ∧ (0.2:ℚ) > 0.15 ∧ ai_assistance_score 20 85 0.2 0.9 0.2 = 1.0 :=
  ⟨⟨by norm_num, by norm_num⟩, by norm_num, by norm_num, by norm_num,
    (C1_ai_assistance_score_rule_stack 20 85 0.2 0.9 0.2).2.2.2
      ⟨by norm_num, by norm_num⟩ (by norm_num) (by norm_num) (by norm_num)⟩

/-- C2: `classify_plagiarism` is total and deterministic: every input maps
to exactly one of the four verdict strings, chosen by the priority cascade
in which "Direct Copy" supersedes "AI-Assisted Plagiarism", which
supersedes "Likely Original", which supersedes "Moderate Similarity"; in
particular lexical > 80 and structural > 80 gives "Direct Copy" regardless
of the AI score. -/
theorem C2_classify_plagiarism_cascade (l s a : ℚ) :
    (classify_plagiarism l s a = "Direct Copy"
      ∨ classify_plagiarism l s a = "AI-Assisted Plagiarism"
      ∨ classify_plagiarism l s a = "Likely Original"
      ∨ classify_plagiarism l s a = "Moderate Similarity")
    ∧ (l > 80 ∧ s > 80 → classify_plagiarism l s a = "Direct Copy")
    ∧ (¬(l > 80 ∧ s > 80) → a ≥ 0.7 →
        classify_plagiarism l s a = "AI-Assisted Plagiarism")
    ∧ (¬(l > 80 ∧ s > 80) → ¬(a ≥ 0.7) → l < 35 ∧ s < 35 →
        classify_plagiarism l s a = "Likely Original")
    ∧ (¬(l > 80 ∧ s > 80) → ¬(a ≥ 0.7) → ¬(l < 35 ∧ s < 35) →
        classify_plagiarism l s a = "Moderate Similarity") := by
  simp only [classify_plagiarism]
  refine ⟨?_, ?_, ?_, ?_, ?_⟩
  · split_ifs <;> simp
  · intro h
    rw [if_pos h]
  · intro h1 h2
    rw [if_neg h1, if_pos h2]
  · intro h1 h2 h3
    rw [if_neg h1, if_neg h2, if_pos h3]
  · intro h1 h2 h3
    rw [if_neg h1, if_neg h2, if_neg h3]

/-- C2 witness: lexical 90, structural 95 give "Direct Copy" even with AI
score 0. -/
theorem C2_classify_plagiarism_cascade_witness :
    classify_plagiarism 90 95 0 = "Direct Copy" :=
  (C2_classify_plagiarism_cascade 90 95 0).2.1 ⟨by norm_num, by norm_num⟩

lemma closingHigh_data_take (x : ℚ) :
    (closingHigh x).data.take 32
      = ("Overall AI-assistance score is h" : String).data := by
  have h1 : 32 ≤ (("Overall AI-assistance score is high (" : String).data).length := by
    decide
  unfold closingHigh
  rw [String.data_append, String.data_append]
  rw [List.take_append_of_le_length
    (by rw [List.length_append]; exact le_trans h1 (Nat.le_add_right _ _))]
  rw [List.take_append_of_le_length h1]
  decide

lemma closingModerate_data_take (x : ℚ) :
    (closingModerate x).data.take 32
      = ("Overall AI-assistance score is m" : String).data := by
  have h1 : 32 ≤
      (("Overall AI-assistance score is moderate (" : String).data).length := by
    decide
  unfold closingModerate
  rw [String.data_append, String.data_append]
  rw [List.take_append_of_le_length
    (by rw [List.length_append]; exact le_trans h1 (Nat.le_add_right _ _))]
  rw [List.take_append_of_le_length h1]
  decide

lemma closingLow_data_take (x : ℚ) :
    (closingLow x).data.take 32
      = ("Overall AI-assistance score is l" : String).data := by
  have h1 : 32 ≤ (("Overall AI-assistance score is low (" : String).data).length := by
    decide
  unfold closingLow
  rw [String.data_append, String.data_append]
  rw [List.take_append_of_le_length
    (by rw [List.length_append]; exact le_trans h1 (Nat.le_add_right _ _))]
  rw [List.take_append_of_le_length h1]
  decide

lemma closingHigh_ne_closingModerate (x y : ℚ) : closingHigh x ≠ closingModerate y := by
  intro h
  have h2 := congrArg (fun s : String => s.data.take 32) h
  simp only at h2
  rw [closingHigh_data_take, closingModerate_data_take] at h2
  exact absurd h2 (by decide)

lemma closingHigh_ne_closingLow (x y : ℚ) : closingHigh x ≠ closingLow y := by
  intro h
  have h2 := congrArg (fun s : String => s.data.take 32) h
  simp only at h2
  rw [closingHigh_data_take, closingLow_data_take] at h2
  exact absurd h2 (by decide)

lemma closingModerate_ne_closingLow (x y : ℚ) : closingModerate x ≠ closingLow y := by
  intro h
  have h2 := congrArg (fun s : String => s.data.take 32) h
  simp only at h2
  rw [closingModerate_data_take, closingLow_data_take] at h2
  exact absurd h2 (by decide)

/-- C9: `generate_explanation` always returns a non-empty sequence of
lines, and its closing line is selected by the same thresholds as the
classifier and scorer: the "high" closing line appears iff
`ai_score ≥ 0.7`, the "moderate" line iff `0.4 ≤ ai_score < 0.7`, and the
"low" line otherwise. -/
theorem C9_explanation_nonempty_and_closing (fa fb : String)
    (lex st ai idd fm lg : ℚ) :
    generate_explanation fa fb lex st ai idd fm lg ≠ []
    ∧ (generate_explanation fa fb lex st ai idd fm lg).getLast?
        = some (if ai ≥ 0.7 then closingHigh ai
                else if ai ≥ 0.4 then closingModerate ai else closingLow ai)
    ∧ ((generate_explanation fa fb lex st ai idd fm lg).getLast?
        = some (closingHigh ai) ↔ ai ≥ 0.7)
    ∧ ((generate_explanation fa fb lex st ai idd fm lg).getLast?
        = some (closingModerate ai) ↔ (0.4 ≤ ai ∧ ai < 0.7))
    ∧ ((generate_explanation fa fb lex st ai idd fm lg).getLast?
        = some (closingLow ai) ↔ ai < 0.4) := by
  have hlast : (generate_explanation fa fb lex st ai idd fm lg).getLast?
      = some (if ai ≥ 0.7 then closingHigh ai
              else if ai ≥ 0.4 then closingModerate ai else closingLow ai) :=
    List.getLast?_concat _
  refine ⟨?_, hlast, ?_, ?_, ?_⟩
  · simp only [generate_explanation]
    simp
  · rw [hlast]
    split_ifs with h1 h2
    · simp [h1]
    · simp only [Option.some.injEq]
      constructor
      · intro he
        exact absurd he.symm (closingHigh_ne_closingModerate ai ai)
      · intro hge
        exact absurd hge h1
    · simp only [Option.some.injEq]
      constructor
      · intro he
        exact absurd he.symm (closingHigh_ne_closingLow ai ai)
      · intro hge
        exact absurd hge h1
  · rw [hlast]
    split_ifs with h1 h2
    · simp only [Option.some.injEq]
      constructor
      · intro he
        exact absurd he (closingHigh_ne_closingModerate ai ai)
      · intro hb
        linarith [hb.2]
    · constructor
      · intro _
        exact ⟨h2, not_le.mp h1⟩
      · intro _
        rfl
    · simp only [Option.some.injEq]
      constructor
      · intro he
        exact absurd he.symm (closingModerate_ne_closingLow ai ai)
      · intro hb
        exact absurd hb.1 h2
  · rw [hlast]
    split_ifs with h1 h2
    · simp only [Option.some.injEq]
      constructor
      · intro he
        exact absurd he (closingHigh_ne_closingLow ai ai)
      · intro hlt
        linarith
    · simp only [Option.some.injEq]
      constructor
      · intro he
        exact absurd he (closingModerate_ne_closingLow ai ai)
      · intro hlt
        linarith
    · simp only [Option.some.injEq, true_iff]
      exact not_le.mp h2

/-- C9 witness: a concrete input with `ai_score = 0.8` whose explanation is
non-empty and closes with the "high" line. -/
theorem C9_explanation_nonempty_and_closing_witness :
    generate_explanation "a.py" "b.py" 10 20 0.8 0.5 0.5 0.1 ≠ []
    ∧ (generate_explanation "a.py" "b.py" 10 20 0.8 0.5 0.5 0.1).getLast?
        = some (closingHigh 0.8) := by
  have h := C9_explanation_nonempty_and_closing "a.py" "b.py" 10 20 0.8 0.5 0.5 0.1
  exact ⟨h.1, h.2.2.1.mpr (by norm_num)⟩

end Prism
